import Mathlib

/-!
A shallow embedding of the client-side shift/order lifecycle of the
courier-simulator repository, together with theorems settling the frozen
claims about it.

The embedded code (the authoritative revisions cited by the claims):
* `GameState` (src/unnamed/part_005): session state, localStorage
  persistence with a 4-hour staleness cutoff;
* `SocketManager.onOrderFound` (src/static/js/modules/socketManager.js);
* `ShiftManager` (src/unnamed/part_007, first revision, lines 1-505):
  startShift / startSearching / endShift / deliverOrder / checkZones and
  the zone-poll interval management;
* `GeolocationManager.startTracking` / `stopTracking`
  (src/static/js/geolocation.js, first revision).

JS numbers that the embedded code only stores, compares and defaults are
modelled as `Int`; timestamps (`Date.now()`) as `Int` milliseconds.
Timer/watch handles (`setInterval` / `watchPosition` ids) are modelled as
`Nat` drawn from an allocation environment `TimerEnv` that records which
handles are live, so that "no duplicate timers" is expressible.
DOM, map-marker and logging side effects are not part of the model.
-/

namespace Courier

/-- The order object as the client stores it.  Only the fields the embedded
lifecycle code reads are kept: `id` (logging / identity) and `pickup_time`,
whose presence (`order.pickup_time` truthiness in JS) discriminates the
to-pickup and to-dropoff phases.  `none` models the absent/null field. -/
structure Order where
  id : Nat
  pickup_time : Option Int
deriving DecidableEq, Repr

/-- The `GameState.state` record of src/unnamed/part_005: shift flag, search
flag, held order and user id. -/
structure GState where
  isOnShift : Bool
  isSearching : Bool
  currentOrder : Option Order
  userId : Int
deriving DecidableEq, Repr

/-- The constructor's initial state (part_005 lines 6-14): off shift, not
searching, no order, guest user id 1. -/
def initialState : GState :=
  { isOnShift := false, isSearching := false, currentOrder := none, userId := 1 }

/-- Embedding of `GameState.setShiftStatus` (part_005 lines 46-50), state part.  The JS
method also calls `save()`; persistence is modelled separately below. -/
def setShiftStatus (s : GState) (status : Bool) : GState :=
  { s with isOnShift := status }

/-- Embedding of `GameState.setSearchingStatus` (part_005 lines 56-60), state part. -/
def setSearchingStatus (s : GState) (status : Bool) : GState :=
  { s with isSearching := status }

/-- Embedding of `GameState.setCurrentOrder` (part_005 lines 66-74), state part. -/
def setCurrentOrder (s : GState) (o : Option Order) : GState :=
  { s with currentOrder := o }

/-- Embedding of `GameState.setUserId` (part_005 lines 80-84), state part. -/
def setUserId (s : GState) (uid : Int) : GState :=
  { s with userId := uid }

/-- First invariant from the spec: `currentOrder ≠ null ⇒ onShift = true`. -/
def inv1 (s : GState) : Bool :=
  s.currentOrder.isNone || s.isOnShift

/-- Second invariant from the spec: `¬(searching ∧ currentOrder ≠ null)`. -/
def inv2 (s : GState) : Bool :=
  !(s.isSearching && s.currentOrder.isSome)

/-- Both session invariants together. -/
def sessionInv (s : GState) : Bool :=
  inv1 s && inv2 s

/-- Embedding of `SocketManager.onOrderFound` (socketManager.js lines 89-110), session
part.  The handler returns early when the payload or its `order` field is
missing (`!data || !data.order`); otherwise it runs
`setCurrentOrder(data.order)` and then `setSearchingStatus(false)`.
The map/modal calls have no session effect. -/
def onOrderFound (s : GState) (data : Option Order) : GState :=
  match data with
  | none => s
  | some o => setSearchingStatus (setCurrentOrder s (some o)) false

/-- The JSON blob `GameState.save` writes under the `courierGameState` key
(part_005 lines 92-105): the four session fields plus `lastSaved`. -/
structure SavedState where
  isOnShift : Bool
  isSearching : Bool
  currentOrder : Option Order
  userId : Int
  lastSaved : Int
deriving DecidableEq, Repr

/-- Embedding of `GameState.save` (part_005 lines 92-105): serialize the full state with
a `lastSaved := Date.now()` stamp.  The stored blob replaces any previous
one; `now` is the clock reading. -/
def save (s : GState) (now : Int) : SavedState :=
  { isOnShift := s.isOnShift, isSearching := s.isSearching
    currentOrder := s.currentOrder, userId := s.userId, lastSaved := now }

/-- Staleness cutoff of `GameState.restore`: 4 hours in milliseconds
(part_005 line 129). -/
def maxAge : Int := 4 * 60 * 60 * 1000

/-- Outcome of `GameState.restore`: its boolean return value, the session
state after the call (`this.state`), and the storage contents after the
call (`none` models a removed `courierGameState` key). -/
structure RestoreResult where
  ok : Bool
  game : GState
  storage : Option SavedState
deriving DecidableEq, Repr

/-- Embedding of `GameState.restore` (part_005 lines 115-162) run on session `g` with
storage contents `st` at clock time `now`.  No saved blob: return false,
leave everything alone.  Blob older than `maxAge` (strict `timeDiff >
maxAge`): remove it, return false, leave `this.state` alone.  Otherwise
rebuild the state with the JS falsy defaults `|| false`, `|| null`,
`|| 1` — for booleans and the order option these are the identity, but a
saved `userId` of 0 is falsy and restores as 1. -/
def restore (g : GState) (now : Int) (st : Option SavedState) : RestoreResult :=
  match st with
  | none => { ok := false, game := g, storage := none }
  | some sv =>
      if now - sv.lastSaved > maxAge then
        { ok := false, game := g, storage := none }
      else
        { ok := true
          game :=
            { isOnShift := sv.isOnShift, isSearching := sv.isSearching
              currentOrder := sv.currentOrder
              userId := if sv.userId = 0 then 1 else sv.userId }
          storage := some sv }

/-- The controller's button/phase states `SHIFT_STATES` (part_007 lines
10-19). -/
inductive ShiftSt where
  | requesting_gps
  | start_shift
  | end_shift
  | searching
  | to_pickup
  | at_pickup
  | to_dropoff
  | at_dropoff
deriving DecidableEq, Repr

/-- Allocation environment for `setInterval` / `watchPosition` handles:
`nextId` is the next fresh handle, `live` the handles whose timer/watch has
been created and not yet cleared. -/
structure TimerEnv where
  nextId : Nat
  live : List Nat
deriving DecidableEq, Repr

/-- Effect of `clearInterval` / `clearWatch` on a handle: the handle stops being
live. -/
def clearHandle (env : TimerEnv) (id : Nat) : TimerEnv :=
  { env with live := env.live.erase id }

/-- Allocate a fresh interval/watch handle (`setInterval` /
`watchPosition`): returns the handle and the grown environment. -/
def allocHandle (env : TimerEnv) : Nat × TimerEnv :=
  (env.nextId, { nextId := env.nextId + 1, live := env.nextId :: env.live })

/-- The mutable ShiftManager state the claims are about: the shared
`gameState`, the `zoneCheckInterval` handle and the `lastButtonState`
remembered by `updateShiftButton` (the primary-action button currently
shown). -/
structure SMState where
  game : GState
  zoneCheckInterval : Option Nat
  lastButtonState : Option ShiftSt
deriving DecidableEq, Repr

/-- Embedding of `ShiftManager.stopZoneChecking` (part_007 lines 318-324): only when a
handle is held, clear it and null the field; otherwise nothing happens. -/
def stopZoneChecking (interval : Option Nat) (env : TimerEnv) :
    Option Nat × TimerEnv :=
  match interval with
  | none => (none, env)
  | some id => (none, clearHandle env id)

/-- Embedding of `ShiftManager.startZoneChecking` (part_007 lines 305-315): first
`stopZoneChecking()`, then `setInterval(checkZones, 2000)` into
`zoneCheckInterval`. -/
def startZoneChecking (interval : Option Nat) (env : TimerEnv) :
    Option Nat × TimerEnv :=
  let stopped := stopZoneChecking interval env
  let fresh := allocHandle stopped.2
  (some fresh.1, fresh.2)

/-- The geolocation manager's tracking state (geolocation.js, first
revision): the `watchPosition` handle and the `isTracking` flag. -/
structure GeoState where
  watchId : Option Nat
  isTracking : Bool
deriving DecidableEq, Repr

/-- Embedding of `GeolocationManager.startTracking` (geolocation.js lines 74-122):
unsupported geolocation returns false; if `isTracking` is already set it
returns true immediately without touching the watch; otherwise it creates
one watch, records its handle, sets the flag and returns true. -/
def startTracking (supported : Bool) (g : GeoState) (env : TimerEnv) :
    Bool × GeoState × TimerEnv :=
  if !supported then (false, g, env)
  else if g.isTracking then (true, g, env)
  else
    let fresh := allocHandle env
    (true, { watchId := some fresh.1, isTracking := true }, fresh.2)

/-- Embedding of `GeolocationManager.stopTracking` (geolocation.js lines 127-134): only
when `watchId !== null`, clear the watch, null the handle and drop the
flag. -/
def stopTracking (g : GeoState) (env : TimerEnv) : GeoState × TimerEnv :=
  match g.watchId with
  | none => (g, env)
  | some id => ({ watchId := none, isTracking := false }, clearHandle env id)

/-- A position fix as `getCurrentPosition()` returns it (lat/lng/accuracy
as JS numbers, here integers: the lifecycle code only forwards them). -/
structure Pos where
  lat : Int
  lng : Int
  accuracy : Int
deriving DecidableEq, Repr

/-- The `zones` object of a successful `POST /api/position` response
(part_007 lines 346-348). -/
structure Zones where
  in_pickup_zone : Bool
  can_pickup : Bool
  in_dropoff_zone : Bool
  can_deliver : Bool
deriving DecidableEq, Repr

/-- Outcome of one `checkZones` tick: the controller state afterwards and
whether the tick issued a position request (`fetch('/api/position')`). -/
structure CheckZonesResult where
  st : SMState
  positionRequested : Bool
deriving DecidableEq, Repr

/-- Embedding of `ShiftManager.checkZones` (part_007 lines 327-372) for one tick.
`pos` is `geoManager.currentPosition`, `resp` the poll response:
`none` models a non-ok response or a transport error (both leave the
state alone).  The top-of-tick guard returns immediately when no order is
held or no fix is available.  On a processed response the button becomes
`AT_PICKUP` / `TO_PICKUP` while `order.pickup_time` is unset, and
`AT_DROPOFF` / `TO_DROPOFF` once it is set, from the zone booleans
alone. -/
def checkZones (s : SMState) (pos : Option Pos) (resp : Option Zones) :
    CheckZonesResult :=
  match s.game.currentOrder, pos with
  | some o, some _ =>
      match resp with
      | none => { st := s, positionRequested := true }
      | some zones =>
          let b :=
            if o.pickup_time.isNone then
              if zones.in_pickup_zone && zones.can_pickup then
                ShiftSt.at_pickup
              else ShiftSt.to_pickup
            else
              if zones.in_dropoff_zone && zones.can_deliver then
                ShiftSt.at_dropoff
              else ShiftSt.to_dropoff
          { st := { s with lastButtonState := some b }, positionRequested := true }
  | _, _ => { st := s, positionRequested := false }

/-- Response of `POST /api/order/deliver` as `deliverOrder` consumes it:
a success with payout and new balance, a `{success:false, error}` body,
or a transport/parse error thrown by `fetch`/`json()`. -/
inductive DeliverResponse where
  | success (payout : Int) (newBalance : Int)
  | failure (error : String)
  | transportError
deriving DecidableEq, Repr

/-- Outcome of one `deliverOrder` call: the ShiftManager state when the
call returns, whether the balance display was updated, and whether a
search restart was scheduled (`setTimeout(startSearching, 1000)`). -/
structure DeliverResult where
  st : SMState
  balanceUpdated : Bool
  searchRestartScheduled : Bool
deriving DecidableEq, Repr

/-- Embedding of `ShiftManager.deliverOrder` (part_007 lines 246-302).  On success it
clears the order, stops zone checking, updates the balance display and
schedules `startSearching` after 1000 ms (the scheduled call itself is
`startSearching` below).  On `{success:false}` or a thrown error it only
alerts: no session field, timer or button changes.  The `env` threading of
the cleared interval handle is kept at the `stopZoneChecking` level; here
only the handle field matters. -/
def deliverOrder (s : SMState) (resp : DeliverResponse) : DeliverResult :=
  match resp with
  | .success _ _ =>
      { st := { game := setCurrentOrder s.game none
                zoneCheckInterval := none
                lastButtonState := s.lastButtonState }
        balanceUpdated := true, searchRestartScheduled := true }
  | .failure _ => { st := s, balanceUpdated := false, searchRestartScheduled := false }
  | .transportError => { st := s, balanceUpdated := false, searchRestartScheduled := false }

/-- Embedding of `ShiftManager.startSearching` (part_007 lines 154-161):
`setSearchingStatus(true)`, button to `SEARCHING`, then
`startOrderSearch(5)` on the socket. -/
def startSearching (s : SMState) : SMState :=
  { s with game := setSearchingStatus s.game true
           lastButtonState := some ShiftSt.searching }

/-- Outcome of one `endShift` call: the state when the call returns,
whether `POST /api/stop_shift` was issued, and whether position tracking
was stopped. -/
structure EndShiftResult where
  st : SMState
  serverCalled : Bool
  trackingStopped : Bool
deriving DecidableEq, Repr

/-- Embedding of `ShiftManager.endShift` (part_007 lines 164-209).  With an active
order, a declined `confirm` dialog returns before anything else runs.
Otherwise `POST /api/stop_shift` is issued; on an ok response all session
flags are cleared, tracking and zone checking stop and the button returns
to `START_SHIFT`; a non-ok response throws after no mutation. -/
def endShift (s : SMState) (confirmAnswer : Bool) (respOk : Bool) :
    EndShiftResult :=
  if s.game.currentOrder.isSome && !confirmAnswer then
    { st := s, serverCalled := false, trackingStopped := false }
  else if respOk then
    { st := { game := setCurrentOrder
                (setSearchingStatus (setShiftStatus s.game false) false) none
              zoneCheckInterval := none
              lastButtonState := some ShiftSt.start_shift }
      serverCalled := true, trackingStopped := true }
  else
    { st := s, serverCalled := true, trackingStopped := false }

/-- Observable actions of a lifecycle run, used to state ordering
guarantees: API calls, socket emits, session mutations, timer delays and
button updates, in program order. -/
inductive Ev where
  | apiStartShift
  | apiDeliver
  | setShiftEv (b : Bool)
  | startTrackingEv
  | emitUserLogin (userId : Int)
  | startZoneCheckingEv
  | stopZoneCheckingEv
  | timerDelay (ms : Nat)
  | setSearchingEv (b : Bool)
  | clearOrderEv
  | buttonEv (st : ShiftSt)
  | emitStartOrderSearch (radiusKm : Nat)
deriving DecidableEq, Repr

/-- Events of `ShiftManager.startSearching` (part_007 lines 154-161). -/
def startSearchingEvents : List Ev :=
  [Ev.setSearchingEv true, Ev.buttonEv ShiftSt.searching,
   Ev.emitStartOrderSearch 5]

/-- Events of a successful `ShiftManager.startShift` run (part_007 lines
99-141), including the `startSearching` scheduled by
`setTimeout(..., 500)`: server call, shift flag, tracking start,
`loginUser` (the `user_login` emit), zone checking, the 500 ms delay, then
the search. -/
def startShiftEvents (userId : Int) : List Ev :=
  [Ev.apiStartShift, Ev.setShiftEv true, Ev.startTrackingEv,
   Ev.emitUserLogin userId, Ev.startZoneCheckingEv, Ev.timerDelay 500]
  ++ startSearchingEvents

/-- Events of a successful `ShiftManager.deliverOrder` run (part_007 lines
246-302), including the `startSearching` scheduled by
`setTimeout(..., 1000)`: no `user_login` emit occurs anywhere in it. -/
def deliverOrderSuccessEvents : List Ev :=
  [Ev.apiDeliver, Ev.clearOrderEv, Ev.stopZoneCheckingEv,
   Ev.timerDelay 1000] ++ startSearchingEvents

/-! Concrete fixtures used by counterexamples and witnesses. -/

/-- A sample order without a pickup time. -/
def order1 : Order := { id := 1, pickup_time := none }

/-- A second, distinct sample order. -/
def order2 : Order := { id := 2, pickup_time := none }

/-- A session holding `order1` (on shift, not searching). -/
def heldSession : GState :=
  { isOnShift := true, isSearching := false, currentOrder := some order1, userId := 1 }

/-- A session in the searching phase (on shift, searching, no order). -/
def searchingSession : GState :=
  { isOnShift := true, isSearching := true, currentOrder := none, userId := 1 }

/-- A searching session with the JS-falsy user id 0. -/
def zeroUserSession : GState :=
  { isOnShift := true, isSearching := false, currentOrder := none, userId := 0 }

/-- An on-shift session with a held order and user id 5. -/
def savedSession : GState :=
  { isOnShift := true, isSearching := false, currentOrder := some order1, userId := 5 }

/-- A ShiftManager fixture in the searching phase. -/
def searchingSM : SMState :=
  { game := searchingSession, zoneCheckInterval := none
    lastButtonState := some ShiftSt.searching }

/-- A ShiftManager fixture holding `order1` with a live poll interval and
the deliver button shown. -/
def holdingSM : SMState :=
  { game := heldSession, zoneCheckInterval := some 3
    lastButtonState := some ShiftSt.at_dropoff }

/-! Claim C1. -/

/-- C1 counterexample: with `order1` already held, an incoming
`order_found` carrying `order2` is not ignored — `onOrderFound` replaces
the held order, and from a still-searching session it also flips the
searching flag.  The handler never compares against the held order. -/
theorem C1_order_found_not_ignored :
    onOrderFound heldSession (some order2) ≠ heldSession ∧
    (onOrderFound heldSession (some order2)).currentOrder = some order2 ∧
    (onOrderFound { heldSession with isSearching := true }
        (some order2)).isSearching = false := by
  decide

/-- C1 amended: the handler is last-order-wins.  Whenever the payload
carries an order, it is stored (replacing any held order `o₀`) and the
searching flag is cleared; shift flag and user id are untouched.  Only a
missing payload/order is ignored. -/
theorem C1_last_order_wins (s : GState) (o o₀ : Order)
    (_h : s.currentOrder = some o₀) :
    (onOrderFound s (some o)).currentOrder = some o ∧
    (onOrderFound s (some o)).isSearching = false ∧
    (onOrderFound s (some o)).isOnShift = s.isOnShift ∧
    (onOrderFound s (some o)).userId = s.userId ∧
    onOrderFound s none = s := by
  simp [onOrderFound, setCurrentOrder, setSearchingStatus]

/-- C1 witness: the amended statement at the concrete held session. -/
theorem C1_last_order_wins_witness :
    heldSession.currentOrder = some order1 ∧
    ((onOrderFound heldSession (some order2)).currentOrder = some order2 ∧
     (onOrderFound heldSession (some order2)).isSearching = false ∧
     (onOrderFound heldSession (some order2)).isOnShift = heldSession.isOnShift ∧
     (onOrderFound heldSession (some order2)).userId = heldSession.userId ∧
     onOrderFound heldSession none = heldSession) :=
  ⟨by decide, C1_last_order_wins heldSession order2 order1 (by decide)⟩

/-! Claim C2. -/

/-- C2 counterexample: `setCurrentOrder` is a completed session-mutating
operation, yet run from the invariant-satisfying searching session (as the
order-found handler does first) it leaves `isSearching = true` with an
order held, violating the second invariant; run from the off-shift initial
state it violates the first. -/
theorem C2_setters_break_invariants :
    sessionInv searchingSession = true ∧
    sessionInv (setCurrentOrder searchingSession (some order1)) = false ∧
    sessionInv initialState = true ∧
    sessionInv (setCurrentOrder initialState (some order1)) = false := by
  decide

/-- C2 amended: the operations preserve the invariants only under the
preconditions of their call sites.  From an invariant-satisfying session:
`setShiftStatus(true)`, `setSearchingStatus(false)` and
`setCurrentOrder(null)` always preserve both invariants;
`setSearchingStatus(true)` preserves them exactly when no order is held;
`setCurrentOrder(order)` when on shift and not searching; the order-found
handler when on shift; `endShift` (any confirm/response outcome),
`deliverOrder` (any response) and the search restart after a successful
delivery always preserve them. -/
theorem C2_invariant_preservation (m : SMState) (o : Order)
    (h : sessionInv m.game = true) :
    sessionInv (setShiftStatus m.game true) = true ∧
    sessionInv (setSearchingStatus m.game false) = true ∧
    sessionInv (setCurrentOrder m.game none) = true ∧
    (m.game.currentOrder = none →
      sessionInv (setSearchingStatus m.game true) = true) ∧
    (m.game.isOnShift = true → m.game.isSearching = false →
      sessionInv (setCurrentOrder m.game (some o)) = true) ∧
    (m.game.isOnShift = true →
      sessionInv (onOrderFound m.game (some o)) = true) ∧
    (∀ c r, sessionInv ((endShift m c r).st.game) = true) ∧
    (∀ resp, sessionInv ((deliverOrder m resp).st.game) = true) ∧
    sessionInv ((startSearching (deliverOrder m (.success 0 0)).st).game) = true := by
  obtain ⟨⟨a, b, c, d⟩, zi, lb⟩ := m
  simp only [sessionInv, inv1, inv2, setShiftStatus, setSearchingStatus,
    setCurrentOrder, onOrderFound, endShift, deliverOrder, startSearching] at h ⊢
  refine ⟨?_, ?_, ?_, ?_, ?_, ?_, ?_, ?_, ?_⟩ <;>
    cases a <;> cases b <;> cases c <;> simp_all <;>
    first
    | rfl
    | (intro resp; cases resp <;> simp)

/-- C2 witness: the amended statement at the searching fixture. -/
theorem C2_invariant_preservation_witness :
    sessionInv searchingSM.game = true ∧
    (sessionInv (setShiftStatus searchingSM.game true) = true ∧
     sessionInv (setSearchingStatus searchingSM.game false) = true ∧
     sessionInv (setCurrentOrder searchingSM.game none) = true ∧
     (searchingSM.game.currentOrder = none →
       sessionInv (setSearchingStatus searchingSM.game true) = true) ∧
     (searchingSM.game.isOnShift = true → searchingSM.game.isSearching = false →
       sessionInv (setCurrentOrder searchingSM.game (some order1)) = true) ∧
     (searchingSM.game.isOnShift = true →
       sessionInv (onOrderFound searchingSM.game (some order1)) = true) ∧
     (∀ c r, sessionInv ((endShift searchingSM c r).st.game) = true) ∧
     (∀ resp, sessionInv ((deliverOrder searchingSM resp).st.game) = true) ∧
     sessionInv
       ((startSearching (deliverOrder searchingSM (.success 0 0)).st).game) = true) :=
  ⟨by decide, C2_invariant_preservation searchingSM order1 (by decide)⟩

/-! Claim C3. -/

/-- C3 counterexample: for the tuple with `userId = 0`, save-then-restore
within the window returns true but yields `userId = 1`, not the saved
tuple; and a stale restore run on a session holding the saved tuple
returns false and removes the blob but leaves the session as it was
(`isOnShift` still true) — not a freshly-initialized session. -/
theorem C3_round_trip_defects :
    (restore zeroUserSession 1 (some (save zeroUserSession 0))).ok = true ∧
    (restore zeroUserSession 1 (some (save zeroUserSession 0))).game ≠
      zeroUserSession ∧
    (restore zeroUserSession 1 (some (save zeroUserSession 0))).game.userId = 1 ∧
    restore savedSession (maxAge + 1) (some (save savedSession 0)) =
      { ok := false, game := savedSession, storage := none } ∧
    savedSession ≠ initialState := by
  decide

/-- C3 amended: for tuples with nonzero `userId`, saving at `t₀` and
restoring at `t` with `t - t₀ ≤ 4` hours returns true, keeps the blob and
yields the identical tuple.  Restoring at `t - t₀ > 4` hours returns
false and removes the blob but leaves the in-memory session exactly as it
was (the freshly-initialized outcome arises only because page load calls
`restore` on a newly-constructed `GameState`, here any `g`). -/
theorem C3_save_restore (s g : GState) (t₀ t : Int) (huid : s.userId ≠ 0) :
    (t - t₀ ≤ maxAge → restore g t (some (save s t₀)) =
      { ok := true, game := s, storage := some (save s t₀) }) ∧
    (t - t₀ > maxAge → restore g t (some (save s t₀)) =
      { ok := false, game := g, storage := none }) := by
  obtain ⟨a, b, c, d⟩ := s
  constructor
  · intro hle
    simp only [restore, save]
    rw [if_neg (by simpa using not_lt.mpr hle)]
    simp_all
  · intro hgt
    simp only [restore, save]
    rw [if_pos (by simpa using hgt)]

/-- C3 witness: the amended statement at the concrete saved session, both
within the window and past it. -/
theorem C3_save_restore_witness :
    savedSession.userId ≠ 0 ∧
    restore initialState 100 (some (save savedSession 0)) =
      { ok := true, game := savedSession, storage := some (save savedSession 0) } ∧
    restore initialState (maxAge + 1) (some (save savedSession 0)) =
      { ok := false, game := initialState, storage := none } :=
  ⟨by decide,
   (C3_save_restore savedSession initialState 0 100 (by decide)).1 (by decide),
   (C3_save_restore savedSession initialState 0 (maxAge + 1) (by decide)).2
     (by decide)⟩

/-! Claim C4. -/

/-- C4: for any processed zone-poll response while an order is held (any
prior controller state `s`), the button state becomes `AT_PICKUP` exactly
when `in_pickup_zone ∧ can_pickup` and `TO_PICKUP` otherwise while
`pickup_time` is unset, and `AT_DROPOFF` exactly when
`in_dropoff_zone ∧ can_deliver` and `TO_DROPOFF` otherwise once
`pickup_time` is set; the session and interval are untouched. -/
theorem C4_zone_derivation (s : SMState) (o : Order) (p : Pos) (z : Zones)
    (ho : s.game.currentOrder = some o) :
    (o.pickup_time = none →
      (checkZones s (some p) (some z)).st.lastButtonState =
        some (if z.in_pickup_zone && z.can_pickup then ShiftSt.at_pickup
              else ShiftSt.to_pickup)) ∧
    (o.pickup_time ≠ none →
      (checkZones s (some p) (some z)).st.lastButtonState =
        some (if z.in_dropoff_zone && z.can_deliver then ShiftSt.at_dropoff
              else ShiftSt.to_dropoff)) ∧
    (checkZones s (some p) (some z)).st.game = s.game ∧
    (checkZones s (some p) (some z)).st.zoneCheckInterval =
      s.zoneCheckInterval := by
  cases hpt : o.pickup_time <;>
    simp [checkZones, ho, hpt, Option.isNone]

/-- C4 witness: the derivation at the holding fixture, with the courier
inside the pickup zone and server-confirmed eligibility. -/
theorem C4_zone_derivation_witness :
    holdingSM.game.currentOrder = some order1 ∧
    (order1.pickup_time = none →
      (checkZones holdingSM (some ⟨43, 76, 5⟩)
          (some ⟨true, true, false, false⟩)).st.lastButtonState =
        some (if true && true then ShiftSt.at_pickup else ShiftSt.to_pickup)) :=
  ⟨by decide,
   (C4_zone_derivation holdingSM order1 ⟨43, 76, 5⟩ ⟨true, true, false, false⟩
     (by decide)).1⟩

/-! Claim C5. -/

/-- C5: a deliver attempt answered by `{success:false}` or a transport
error changes nothing: the whole ShiftManager state (session with its
`currentOrder`, the zone-poll interval, the shown button — so the primary
action still offers deliver) is exactly as before, the balance display is
not updated and no search restart is scheduled. -/
theorem C5_failed_deliver_frame (s : SMState) (e : String) :
    deliverOrder s (.failure e) =
      { st := s, balanceUpdated := false, searchRestartScheduled := false } ∧
    deliverOrder s .transportError =
      { st := s, balanceUpdated := false, searchRestartScheduled := false } ∧
    (deliverOrder s (.failure e)).st.game.currentOrder =
      s.game.currentOrder ∧
    (deliverOrder s (.failure e)).st.zoneCheckInterval =
      s.zoneCheckInterval ∧
    (deliverOrder s (.failure e)).st.lastButtonState = s.lastButtonState :=
  ⟨rfl, rfl, rfl, rfl, rfl⟩

/-! Claim C6. -/

/-- C6: with an order held, a declined confirmation makes `endShift`
return with no server call and the state — every session field, interval
and button — untouched; and whenever the stop-shift endpoint was called
from an order-holding state, the user had confirmed. -/
theorem C6_decline_keeps_state (s : SMState) (o : Order) (respOk : Bool)
    (ho : s.game.currentOrder = some o) :
    endShift s false respOk =
      { st := s, serverCalled := false, trackingStopped := false } ∧
    (∀ c, (endShift s c respOk).serverCalled = true → c = true) := by
  constructor
  · simp [endShift, ho]
  · intro c hc
    cases c
    · simp [endShift, ho] at hc
    · rfl

/-- C6 witness: declining at the holding fixture. -/
theorem C6_decline_keeps_state_witness :
    holdingSM.game.currentOrder = some order1 ∧
    endShift holdingSM false true =
      { st := holdingSM, serverCalled := false, trackingStopped := false } :=
  ⟨by decide,
   (C6_decline_keeps_state holdingSM order1 true (by decide)).1⟩

/-! Claim C7. -/

/-- C7: in every successful `startShift` run the `user_login` emit occurs
strictly before the 500 ms delay, which occurs strictly before the
`start_order_search` emit (registration-before-search, settled by the
fixed delay); and the successful-delivery run re-emits the search but
contains no `user_login` at all. -/
theorem C7_login_before_search (uid : Int) :
    (∃ i j k : Nat, i < j ∧ j < k ∧
      (startShiftEvents uid)[i]? = some (Ev.emitUserLogin uid) ∧
      (startShiftEvents uid)[j]? = some (Ev.timerDelay 500) ∧
      (startShiftEvents uid)[k]? = some (Ev.emitStartOrderSearch 5)) ∧
    Ev.emitStartOrderSearch 5 ∈ deliverOrderSuccessEvents ∧
    (∀ u, Ev.emitUserLogin u ∉ deliverOrderSuccessEvents) := by
  refine ⟨⟨3, 5, 8, by decide, by decide, rfl, rfl, rfl⟩, ?_, ?_⟩
  · simp [deliverOrderSuccessEvents, startSearchingEvents]
  · intro u
    simp [deliverOrderSuccessEvents, startSearchingEvents]

/-! Claim C8. -/

/-- C8: with no active geolocation watch, `stopTracking` is a no-op on the
watch handle, the `isTracking` flag and the live-timer environment; with
no active poll interval, `stopZoneChecking` likewise changes nothing.
Both are total — no error path exists. -/
theorem C8_stop_idempotent (g : GeoState) (env : TimerEnv)
    (hw : g.watchId = none) :
    stopTracking g env = (g, env) ∧
    stopZoneChecking none env = (none, env) := by
  obtain ⟨w, tr⟩ := g
  cases hw
  exact ⟨rfl, rfl⟩

/-- C8 witness: stopping when already stopped, concretely. -/
theorem C8_stop_idempotent_witness :
    (⟨none, false⟩ : GeoState).watchId = none ∧
    (stopTracking ⟨none, false⟩ ⟨4, []⟩ = (⟨none, false⟩, ⟨4, []⟩) ∧
     stopZoneChecking none ⟨4, []⟩ = (none, ⟨4, []⟩)) :=
  ⟨rfl, C8_stop_idempotent ⟨none, false⟩ ⟨4, []⟩ rfl⟩

/-! Claim C9. -/

/-- C9: a zone-poll tick firing with no held order or no position fix is a
no-op: `checkZones` returns at the top-of-tick guard, issuing no position
request and changing no state. -/
theorem C9_tick_guard (s : SMState) (pos : Option Pos) (resp : Option Zones)
    (h : s.game.currentOrder = none ∨ pos = none) :
    checkZones s pos resp = { st := s, positionRequested := false } := by
  rcases h with h | h
  · cases pos <;> simp [checkZones, h]
  · cases hc : s.game.currentOrder <;> simp [checkZones, h, hc]

/-- C9 witness: a tick after the order was just cleared. -/
theorem C9_tick_guard_witness :
    (searchingSM.game.currentOrder = none ∨
      (some (⟨43, 76, 5⟩ : Pos)) = none) ∧
    checkZones searchingSM (some ⟨43, 76, 5⟩) (some ⟨true, true, true, true⟩) =
      { st := searchingSM, positionRequested := false } :=
  ⟨Or.inl (by decide),
   C9_tick_guard searchingSM (some ⟨43, 76, 5⟩) (some ⟨true, true, true, true⟩)
     (Or.inl (by decide))⟩

/-! Claim C10. -/

/-- C10: when the live timers are exactly the held interval handle,
`startZoneChecking` first cancels it and then creates one fresh interval,
so exactly one interval is live afterwards — repeated starts never stack;
and `startTracking` with tracking already active returns true at once,
creating no second watch and changing nothing. -/
theorem C10_no_duplicate_timers (interval : Option Nat) (env : TimerEnv)
    (g : GeoState) (hlive : env.live = interval.toList)
    (ht : g.isTracking = true) :
    (∃ newId, startZoneChecking interval env =
      (some newId, { nextId := newId + 1, live := [newId] })) ∧
    startTracking true g env = (true, g, env) := by
  constructor
  · refine ⟨env.nextId, ?_⟩
    cases interval <;>
      simp_all [startZoneChecking, stopZoneChecking, clearHandle, allocHandle]
  · simp [startTracking, ht]

/-- C10 witness: restarting zone checking over a live interval handle, and
re-starting tracking while already tracking. -/
theorem C10_no_duplicate_timers_witness :
    (⟨7, [3]⟩ : TimerEnv).live = (some 3 : Option Nat).toList ∧
    (⟨some 0, true⟩ : GeoState).isTracking = true ∧
    ((∃ newId, startZoneChecking (some 3) ⟨7, [3]⟩ =
        (some newId, { nextId := newId + 1, live := [newId] })) ∧
     startTracking true ⟨some 0, true⟩ ⟨7, [3]⟩ =
        (true, ⟨some 0, true⟩, ⟨7, [3]⟩)) :=
  ⟨by decide, rfl,
   C10_no_duplicate_timers (some 3) ⟨7, [3]⟩ ⟨some 0, true⟩ (by decide) rfl⟩

end Courier
